import Mathlib

/-
Shallow embedding of the blower-door firmware's metrics core:
  * `src/services/blower_metrics.c` — the metrics aggregation service
    (snapshot publication, zero-offset capture, timed calibration window);
  * the ADP910 sampling task — per-channel acquisition state machine
    (readiness, retry backoff, consecutive-error streak, diagnostics).

Modelling conventions:
  * C `float` values are embedded as `Rat` (exact arithmetic); the claims
    about them are structural (which field changes, which mean is taken),
    not about rounding.
  * `uint32_t` / `TickType_t` arithmetic is `Nat` reduced `% 2^32` exactly
    where the C code can overflow or wrap (sequence increments, tick
    subtraction, counter increments).  `uint8_t` streaks saturate at 255 as
    in the source.
  * FreeRTOS primitives: the mutex serialises every entry point and
    acquisition always succeeds (`portMAX_DELAY`), so each entry point is a
    pure state transformer; `xTaskGetTickCount` becomes an explicit
    `now_tick` argument.  `portTICK_PERIOD_MS` is 1 (1 kHz tick), so
    `pdMS_TO_TICKS` is the identity.
  * The external sensor driver is a collaborator: its outcome and sample
    for a given transaction are passed in as arguments.
  * Model function pointers become Lean functions; a `NULL` pointer in the
    `blower_metrics_models_t` argument becomes `Option`.
-/

def UINT32_MOD : Nat := 4294967296

def UINT8_MAX : Nat := 255

def CALIBRATION_DURATION_MS : Nat := 10000

def CALIBRATION_MIN_SAMPLES : Nat := 20

def ADP910_INIT_RETRY_BACKOFF_MS : Nat := 1000

def ADP910_READ_ERROR_STREAK_TO_REINIT : Nat := 3

def portTICK_PERIOD_MS : Nat := 1

/-- Unsigned 32-bit subtraction `a - b` (wraparound semantics of
`TickType_t` arithmetic in C). -/
def tickSub (a b : Nat) : Nat :=
  (a % UINT32_MOD + (UINT32_MOD - b % UINT32_MOD)) % UINT32_MOD

/-- Embeds `adp910_sample_t`: one corrected sensor sample. -/
structure adp910_sample_t where
  corrected_pressure_pa : Rat
  temperature_c : Rat
deriving DecidableEq

/-- Embeds `blower_absf` from blower_metrics.c. -/
def blower_absf (value : Rat) : Rat :=
  if value ≥ 0 then value else -value

structure blower_linear_fan_speed_model_config_t where
  pascal_to_speed_gain : Rat

structure blower_linear_air_leakage_model_config_t where
  leakage_gain : Rat

/-- Embeds `blower_linear_fan_speed_model`: default pressure→speed model.  The C
`context` pointer is `Option`; a `NULL` or non-positive gain means the
neutral gain 1. -/
def blower_linear_fan_speed_model (fan_pressure_pa : Rat)
    (config : Option blower_linear_fan_speed_model_config_t) : Rat :=
  let gain : Rat :=
    match config with
    | some c => if c.pascal_to_speed_gain > 0 then c.pascal_to_speed_gain else 1
    | none => 1
  blower_absf fan_pressure_pa * gain

/-- Embeds `blower_linear_air_leakage_model`: default (speed, envelope
pressure)→leakage model. -/
def blower_linear_air_leakage_model (fan_speed_units : Rat)
    (envelope_pressure_pa : Rat)
    (config : Option blower_linear_air_leakage_model_config_t) : Rat :=
  let gain : Rat :=
    match config with
    | some c => if c.leakage_gain > 0 then c.leakage_gain else 1
    | none => 1
  fan_speed_units * blower_absf envelope_pressure_pa * gain

/-- Embeds `blower_metrics_models_t` as passed to the service: each function
pointer may be `NULL` (`none`); the opaque `context` pointer of the C
struct is folded into the closure. -/
structure blower_metrics_models_t where
  fan_speed_model : Option (Rat → Rat)
  air_leakage_model : Option (Rat → Rat → Rat)

/-- The models actually installed in the service context: `initialize`
guarantees both pointers are non-NULL, so both functions are total here. -/
structure service_models_t where
  fan_speed_model : Rat → Rat
  air_leakage_model : Rat → Rat → Rat

/-- Embeds `blower_metrics_service_apply_default_models`: the built-in linear
models with `NULL` config (neutral gain). -/
def defaultServiceModels : service_models_t where
  fan_speed_model := fun p => blower_linear_fan_speed_model p none
  air_leakage_model := fun s p => blower_linear_air_leakage_model s p none

/-- Calibration state enum; `BLOWER_CAL_IDLE` is the all-zero value
produced by `memset`. -/
inductive blower_cal_state_t where
  | idle
  | sampling
  | done
deriving DecidableEq

/-- Embeds `blower_metrics_snapshot_t`: the published record. -/
structure blower_metrics_snapshot_t where
  fan_pressure_pa : Rat
  fan_temperature_c : Rat
  fan_sample_valid : Bool
  envelope_pressure_pa : Rat
  envelope_temperature_c : Rat
  envelope_sample_valid : Bool
  fan_speed_units : Rat
  estimated_air_leakage_units : Rat
  calibration_state : blower_cal_state_t
  calibration_progress_pct : Nat
  calibration_fan_offset : Rat
  calibration_envelope_offset : Rat
  update_sequence : Nat
  last_update_tick : Nat
deriving DecidableEq

/-- The all-zero snapshot written by `memset(&snapshot, 0, ...)`. -/
def emptySnapshot : blower_metrics_snapshot_t where
  fan_pressure_pa := 0
  fan_temperature_c := 0
  fan_sample_valid := false
  envelope_pressure_pa := 0
  envelope_temperature_c := 0
  envelope_sample_valid := false
  fan_speed_units := 0
  estimated_air_leakage_units := 0
  calibration_state := .idle
  calibration_progress_pct := 0
  calibration_fan_offset := 0
  calibration_envelope_offset := 0
  update_sequence := 0
  last_update_tick := 0

/-- Embeds `calibration_accumulator_t`. -/
structure calibration_accumulator_t where
  active : Bool
  start_tick : Nat
  fan_sum : Rat
  envelope_sum : Rat
  fan_count : Nat
  envelope_count : Nat
deriving DecidableEq

/-- The all-zero accumulator written by `memset(&cal, 0, ...)`. -/
def emptyCalAccumulator : calibration_accumulator_t where
  active := false
  start_tick := 0
  fan_sum := 0
  envelope_sum := 0
  fan_count := 0
  envelope_count := 0

/-- Embeds `blower_metrics_service_context_t` (minus the mutex handle, which is
modelled as always present and always acquirable). -/
structure blower_metrics_service_context_t where
  models : service_models_t
  snapshot : blower_metrics_snapshot_t
  fan_pressure_offset_pa : Rat
  envelope_pressure_offset_pa : Rat
  last_fan_pressure_raw_pa : Rat
  last_envelope_pressure_raw_pa : Rat
  has_last_fan_pressure_raw : Bool
  has_last_envelope_pressure_raw : Bool
  is_initialized : Bool
  cal : calibration_accumulator_t

/-- Embeds `blower_metrics_service_initialize`: installs the supplied models when
the argument and both function pointers are non-NULL, the built-in
defaults otherwise; zeroes the snapshot, offsets, raw caches and
calibration accumulator; marks the service initialized. -/
def blower_metrics_service_initialize
    (_ctx : blower_metrics_service_context_t)
    (models : Option blower_metrics_models_t) :
    blower_metrics_service_context_t :=
  let installed : service_models_t :=
    match models with
    | some m =>
      match m.fan_speed_model, m.air_leakage_model with
      | some f, some l => ⟨f, l⟩
      | _, _ => defaultServiceModels
    | none => defaultServiceModels
  { models := installed
    snapshot := emptySnapshot
    fan_pressure_offset_pa := 0
    envelope_pressure_offset_pa := 0
    last_fan_pressure_raw_pa := 0
    last_envelope_pressure_raw_pa := 0
    has_last_fan_pressure_raw := false
    has_last_envelope_pressure_raw := false
    is_initialized := true
    cal := emptyCalAccumulator }

/-- Fan-role ingestion step of `blower_metrics_service_update`
(lines 121–130): the C condition is `fan_sample_valid && fan_sample != NULL`. -/
def apply_fan_sample (ctx : blower_metrics_service_context_t)
    (fan_sample : Option adp910_sample_t) (fan_sample_valid : Bool) :
    blower_metrics_service_context_t :=
  match fan_sample_valid, fan_sample with
  | true, some s =>
    { ctx with
      last_fan_pressure_raw_pa := s.corrected_pressure_pa
      has_last_fan_pressure_raw := true
      snapshot := { ctx.snapshot with
        fan_pressure_pa := s.corrected_pressure_pa - ctx.fan_pressure_offset_pa
        fan_temperature_c := s.temperature_c
        fan_sample_valid := true } }
  | _, _ =>
    { ctx with snapshot := { ctx.snapshot with fan_sample_valid := false } }

/-- Envelope-role ingestion step of `blower_metrics_service_update`
(lines 132–143). -/
def apply_envelope_sample (ctx : blower_metrics_service_context_t)
    (envelope_sample : Option adp910_sample_t) (envelope_sample_valid : Bool) :
    blower_metrics_service_context_t :=
  match envelope_sample_valid, envelope_sample with
  | true, some s =>
    { ctx with
      last_envelope_pressure_raw_pa := s.corrected_pressure_pa
      has_last_envelope_pressure_raw := true
      snapshot := { ctx.snapshot with
        envelope_pressure_pa := s.corrected_pressure_pa - ctx.envelope_pressure_offset_pa
        envelope_temperature_c := s.temperature_c
        envelope_sample_valid := true } }
  | _, _ =>
    { ctx with snapshot := { ctx.snapshot with envelope_sample_valid := false } }

/-- The elapsed-milliseconds computation of the calibration block:
`(uint32_t)((now_tick - start_tick) * portTICK_PERIOD_MS)`. -/
def calElapsedMs (now_tick start_tick : Nat) : Nat :=
  tickSub now_tick start_tick * portTICK_PERIOD_MS % UINT32_MOD

/-- Calibration block of `blower_metrics_service_update` (lines 145–193):
accumulate valid samples, then either report capped progress or finalize
per role and deactivate. -/
def apply_calibration (ctx : blower_metrics_service_context_t)
    (fan_sample : Option adp910_sample_t) (fan_sample_valid : Bool)
    (envelope_sample : Option adp910_sample_t) (envelope_sample_valid : Bool)
    (now_tick : Nat) : blower_metrics_service_context_t :=
  if ctx.cal.active then
    let elapsed_ms := calElapsedMs now_tick ctx.cal.start_tick
    let cal1 :=
      match fan_sample_valid, fan_sample with
      | true, some s =>
        { ctx.cal with
          fan_sum := ctx.cal.fan_sum + s.corrected_pressure_pa
          fan_count := (ctx.cal.fan_count + 1) % UINT32_MOD }
      | _, _ => ctx.cal
    let cal2 :=
      match envelope_sample_valid, envelope_sample with
      | true, some s =>
        { cal1 with
          envelope_sum := cal1.envelope_sum + s.corrected_pressure_pa
          envelope_count := (cal1.envelope_count + 1) % UINT32_MOD }
      | _, _ => cal1
    let ctx1 := { ctx with cal := cal2 }
    if elapsed_ms < CALIBRATION_DURATION_MS then
      let pct0 := elapsed_ms * 100 % UINT32_MOD / CALIBRATION_DURATION_MS
      let pct := if pct0 > 99 then 99 else pct0
      { ctx1 with snapshot := { ctx1.snapshot with
          calibration_state := .sampling
          calibration_progress_pct := pct } }
    else
      let ctx2 :=
        if ctx1.cal.fan_count ≥ CALIBRATION_MIN_SAMPLES then
          { ctx1 with
            fan_pressure_offset_pa := ctx1.cal.fan_sum / (ctx1.cal.fan_count : Rat)
            snapshot := { ctx1.snapshot with
              fan_pressure_pa := ctx1.last_fan_pressure_raw_pa -
                ctx1.cal.fan_sum / (ctx1.cal.fan_count : Rat) } }
        else ctx1
      let ctx3 :=
        if ctx2.cal.envelope_count ≥ CALIBRATION_MIN_SAMPLES then
          { ctx2 with
            envelope_pressure_offset_pa :=
              ctx2.cal.envelope_sum / (ctx2.cal.envelope_count : Rat)
            snapshot := { ctx2.snapshot with
              envelope_pressure_pa := ctx2.last_envelope_pressure_raw_pa -
                ctx2.cal.envelope_sum / (ctx2.cal.envelope_count : Rat) } }
        else ctx2
      { ctx3 with
        cal := { ctx3.cal with active := false }
        snapshot := { ctx3.snapshot with
          calibration_fan_offset := ctx3.fan_pressure_offset_pa
          calibration_envelope_offset := ctx3.envelope_pressure_offset_pa
          calibration_state := .done
          calibration_progress_pct := 100 } }
  else ctx

/-- Tail of `blower_metrics_service_update` (lines 195–203): recompute the
derived metrics through the installed models, bump the sequence (uint32
wraparound) and stamp the tick. -/
def apply_models_and_commit (ctx : blower_metrics_service_context_t)
    (now_tick : Nat) : blower_metrics_service_context_t :=
  let speed := ctx.models.fan_speed_model ctx.snapshot.fan_pressure_pa
  let leak := ctx.models.air_leakage_model speed ctx.snapshot.envelope_pressure_pa
  { ctx with snapshot := { ctx.snapshot with
      fan_speed_units := speed
      estimated_air_leakage_units := leak
      update_sequence := (ctx.snapshot.update_sequence + 1) % UINT32_MOD
      last_update_tick := now_tick % UINT32_MOD } }

/-- Embeds `blower_metrics_service_update`: the single ingestion entry point.
Self-initializes with defaults when not yet initialized, then runs the
two role ingestion steps, the calibration block, and the commit tail. -/
def blower_metrics_service_update (ctx : blower_metrics_service_context_t)
    (fan_sample : Option adp910_sample_t) (fan_sample_valid : Bool)
    (envelope_sample : Option adp910_sample_t) (envelope_sample_valid : Bool)
    (now_tick : Nat) : blower_metrics_service_context_t :=
  let c0 := if ctx.is_initialized then ctx
            else blower_metrics_service_initialize ctx none
  apply_models_and_commit
    (apply_calibration
      (apply_envelope_sample
        (apply_fan_sample c0 fan_sample fan_sample_valid)
        envelope_sample envelope_sample_valid)
      fan_sample fan_sample_valid envelope_sample envelope_sample_valid now_tick)
    now_tick

/-- Embeds `blower_metrics_service_get_snapshot`: copies the snapshot under lock;
fails (returns `none`) when the service was never initialized. -/
def blower_metrics_service_get_snapshot
    (ctx : blower_metrics_service_context_t) :
    Option blower_metrics_snapshot_t :=
  if ctx.is_initialized then some ctx.snapshot else none

/-- Embeds `blower_metrics_service_capture_zero_offsets`: one-shot manual zeroing.
Returns the new context and the `captured` flag. -/
def blower_metrics_service_capture_zero_offsets
    (ctx : blower_metrics_service_context_t) (now_tick : Nat) :
    blower_metrics_service_context_t × Bool :=
  if ctx.is_initialized then
    let fanCap := ctx.snapshot.fan_sample_valid && ctx.has_last_fan_pressure_raw
    let envCap := ctx.snapshot.envelope_sample_valid &&
      ctx.has_last_envelope_pressure_raw
    let ctx1 :=
      if fanCap then
        { ctx with
          fan_pressure_offset_pa := ctx.last_fan_pressure_raw_pa
          snapshot := { ctx.snapshot with fan_pressure_pa := 0 } }
      else ctx
    let ctx2 :=
      if envCap then
        { ctx1 with
          envelope_pressure_offset_pa := ctx1.last_envelope_pressure_raw_pa
          snapshot := { ctx1.snapshot with envelope_pressure_pa := 0 } }
      else ctx1
    if fanCap || envCap then
      let speed := ctx2.models.fan_speed_model ctx2.snapshot.fan_pressure_pa
      let leak := ctx2.models.air_leakage_model speed
        ctx2.snapshot.envelope_pressure_pa
      ({ ctx2 with snapshot := { ctx2.snapshot with
           fan_speed_units := speed
           estimated_air_leakage_units := leak
           update_sequence := (ctx2.snapshot.update_sequence + 1) % UINT32_MOD
           last_update_tick := now_tick % UINT32_MOD } }, true)
    else (ctx2, false)
  else (ctx, false)

/-- Embeds `blower_metrics_service_begin_calibration`: zero both offsets, arm the
accumulator with a fresh start tick, set state Sampling / progress 0. -/
def blower_metrics_service_begin_calibration
    (ctx : blower_metrics_service_context_t) (now_tick : Nat) :
    blower_metrics_service_context_t :=
  if ctx.is_initialized then
    { ctx with
      fan_pressure_offset_pa := 0
      envelope_pressure_offset_pa := 0
      cal := { active := true, start_tick := now_tick % UINT32_MOD,
               fan_sum := 0, envelope_sum := 0, fan_count := 0,
               envelope_count := 0 }
      snapshot := { ctx.snapshot with
        calibration_state := .sampling
        calibration_progress_pct := 0 } }
  else ctx

/-- Embeds `adp910_status_t`: the driver outcome enumeration. -/
inductive adp910_status_t where
  | ok
  | invalid_argument
  | bus_error
  | not_ready
  | crc_mismatch
  | unknown
deriving DecidableEq

/-- Outcome-is-success as a `Bool` (the C comparison
`status == ADP910_STATUS_OK`). -/
def statusIsOk (s : adp910_status_t) : Bool :=
  match s with
  | .ok => true
  | _ => false

/-- The C disjunction `status == BUS_ERROR || status == NOT_READY`:
the only outcomes that count toward the forced-reinit streak. -/
def statusIsStreakError (s : adp910_status_t) : Bool :=
  match s with
  | .bus_error => true
  | .not_ready => true
  | _ => false

/-- Embeds `adp910_diag_t`: per-channel outcome tallies (uint32) plus the last
recorded outcome. -/
structure adp910_diag_t where
  ok : Nat
  invalid_argument : Nat
  bus_error : Nat
  not_ready : Nat
  crc_mismatch : Nat
  other : Nat
  last_status : adp910_status_t
deriving DecidableEq

/-- Embeds `adp910_diag_reset`. -/
def adp910_diag_reset : adp910_diag_t :=
  { ok := 0, invalid_argument := 0, bus_error := 0, not_ready := 0,
    crc_mismatch := 0, other := 0, last_status := .ok }

/-- Embeds `adp910_diag_record`: overwrite the last outcome, bump exactly one
bucket (uint32 wraparound). -/
def adp910_diag_record (diag : adp910_diag_t) (status : adp910_status_t) :
    adp910_diag_t :=
  let d := { diag with last_status := status }
  match status with
  | .ok => { d with ok := (d.ok + 1) % UINT32_MOD }
  | .invalid_argument =>
    { d with invalid_argument := (d.invalid_argument + 1) % UINT32_MOD }
  | .bus_error => { d with bus_error := (d.bus_error + 1) % UINT32_MOD }
  | .not_ready => { d with not_ready := (d.not_ready + 1) % UINT32_MOD }
  | .crc_mismatch => { d with crc_mismatch := (d.crc_mismatch + 1) % UINT32_MOD }
  | .unknown => { d with other := (d.other + 1) % UINT32_MOD }

/-- Embeds `adp910_channel_t` (minus the fixed identity/port/driver handle, which
never change and do not affect the state machine). -/
structure adp910_channel_t where
  diag : adp910_diag_t
  ready : Bool
  next_init_tick : Nat
  sample : adp910_sample_t
  sample_valid : Bool
  last_read_status : adp910_status_t
  read_error_streak : Nat
deriving DecidableEq

/-- Embeds `adp910_channel_reset_cycle`: clear the sample, validity and last read
status to the invalid baseline at the start of every cycle. -/
def adp910_channel_reset_cycle (channel : adp910_channel_t) :
    adp910_channel_t :=
  { channel with
    sample := { corrected_pressure_pa := 0, temperature_c := 0 }
    sample_valid := false
    last_read_status := .not_ready }

/-- Embeds `adp910_channel_try_init`: no-op unless the channel is `NOT_READY` and
the backoff deadline has passed.  The driver's init outcome is the
`init_status` argument. -/
def adp910_channel_try_init (channel : adp910_channel_t) (now_tick : Nat)
    (init_status : adp910_status_t) : adp910_channel_t :=
  if channel.ready || decide (now_tick < channel.next_init_tick) then channel
  else
    let ch := { channel with
      ready := statusIsOk init_status
      diag := adp910_diag_record channel.diag init_status }
    if statusIsOk init_status then
      { ch with read_error_streak := 0 }
    else
      { ch with
        read_error_streak := 0
        next_init_tick := now_tick + ADP910_INIT_RETRY_BACKOFF_MS }

/-- Embeds `adp910_channel_read`: no-op unless `READY`; records the outcome,
marks the sample valid iff the read succeeded; a success resets the
streak; a bus-error/not-ready failure bumps the saturating streak and, on
reaching the threshold (3), forces `NOT_READY` and resets the streak
without touching the retry deadline; every other failure leaves both the
readiness and the streak alone.  The driver's read result is the
`(status, sample)` argument pair. -/
def adp910_channel_read (channel : adp910_channel_t)
    (status : adp910_status_t) (sample : adp910_sample_t) :
    adp910_channel_t :=
  if channel.ready then
    let ch := { channel with
      last_read_status := status
      diag := adp910_diag_record channel.diag status
      sample := sample
      sample_valid := statusIsOk status }
    if statusIsOk status then
      { ch with read_error_streak := 0 }
    else if statusIsStreakError status then
      let streak := if ch.read_error_streak < UINT8_MAX
                    then ch.read_error_streak + 1
                    else ch.read_error_streak
      if streak ≥ ADP910_READ_ERROR_STREAK_TO_REINIT then
        { ch with ready := false, read_error_streak := 0 }
      else
        { ch with read_error_streak := streak }
    else ch
  else channel

/-- A sequence of consecutive reads, each with its driver outcome and
sample. -/
def adp910_channel_read_all (channel : adp910_channel_t)
    (reads : List (adp910_status_t × adp910_sample_t)) : adp910_channel_t :=
  reads.foldl (fun ch r => adp910_channel_read ch r.1 r.2) channel

/-- One externally visible call into the metrics service (the ingestion
entry point, the two out-of-band mutators, and the reader). -/
inductive service_op where
  | update (fan : Option adp910_sample_t) (fanV : Bool)
      (env : Option adp910_sample_t) (envV : Bool) (tick : Nat)
  | capture_zero (tick : Nat)
  | begin_cal (tick : Nat)
  | get_snap

/-- The state transition of one service call (`get_snapshot` copies but
does not mutate). -/
def service_step (ctx : blower_metrics_service_context_t) :
    service_op → blower_metrics_service_context_t
  | .update fan fanV env envV tick =>
    blower_metrics_service_update ctx fan fanV env envV tick
  | .capture_zero tick =>
    (blower_metrics_service_capture_zero_offsets ctx tick).1
  | .begin_cal tick => blower_metrics_service_begin_calibration ctx tick
  | .get_snap => ctx

/-- How many committed snapshot mutations a call performs from state
`ctx`: every `update` commits once; `capture_zero_offsets` commits exactly
when it reports something captured; the other calls never commit. -/
def service_op_commits (ctx : blower_metrics_service_context_t) :
    service_op → Nat
  | .update _ _ _ _ _ => 1
  | .capture_zero tick =>
    if (blower_metrics_service_capture_zero_offsets ctx tick).2 then 1 else 0
  | .begin_cal _ => 0
  | .get_snap => 0

/-- Run a sequence of service calls. -/
def service_run (ctx : blower_metrics_service_context_t) :
    List service_op → blower_metrics_service_context_t
  | [] => ctx
  | op :: ops => service_run (service_step ctx op) ops

/-- Total number of committed snapshot mutations along a call sequence. -/
def service_commit_count (ctx : blower_metrics_service_context_t) :
    List service_op → Nat
  | [] => 0
  | op :: ops =>
    service_op_commits ctx op + service_commit_count (service_step ctx op) ops

/-- A freshly default-initialized service context (for concrete
evaluations). -/
def initCtx : blower_metrics_service_context_t :=
  blower_metrics_service_initialize
    ⟨defaultServiceModels, emptySnapshot, 0, 0, 0, 0, false, false, false,
     emptyCalAccumulator⟩ none

/-- A read outcome that does not count toward the forced-reinit streak
(protocol/CRC mismatch, invalid argument, or unclassified). -/
def statusNonStreakFailure (s : adp910_status_t) : Prop :=
  s = .crc_mismatch ∨ s = .invalid_argument ∨ s = .unknown

instance (s : adp910_status_t) : Decidable (statusNonStreakFailure s) := by
  unfold statusNonStreakFailure
  infer_instance

/-- A non-streak outcome leaves both the readiness flag and the error
streak of a channel untouched, whatever the current state. -/
theorem read_nonstreak_preserves (ch : adp910_channel_t)
    (s : adp910_status_t) (smp : adp910_sample_t)
    (hs : statusNonStreakFailure s) :
    (adp910_channel_read ch s smp).ready = ch.ready ∧
    (adp910_channel_read ch s smp).read_error_streak = ch.read_error_streak := by
  rcases hs with h | h | h <;> subst h <;>
    cases hr : ch.ready <;>
      simp [adp910_channel_read, statusIsOk, statusIsStreakError, hr]

/-- A ready channel with a zero streak, used to evaluate the channel
theorems on concrete inputs. -/
def witnessChannel : adp910_channel_t where
  diag := adp910_diag_reset
  ready := true
  next_init_tick := 7
  sample := { corrected_pressure_pa := 0, temperature_c := 0 }
  sample_valid := false
  last_read_status := .ok
  read_error_streak := 0

/-- A streak-counting outcome is never the success outcome. -/
theorem statusIsOk_eq_false_of_streakError (s : adp910_status_t)
    (hs : statusIsStreakError s = true) : statusIsOk s = false := by
  cases s <;> simp [statusIsOk, statusIsStreakError] at hs ⊢

/-- One streak-counting failed read below the reinit threshold: stays
READY, streak goes up by one, the retry deadline is untouched. -/
theorem read_streak_error_below_threshold (ch : adp910_channel_t)
    (s : adp910_status_t) (smp : adp910_sample_t) (n : Nat)
    (hready : ch.ready = true) (hs : statusIsStreakError s = true)
    (hn : ch.read_error_streak = n) (hlow : n + 1 < 3) (hcap : n < 255) :
    (adp910_channel_read ch s smp).ready = true ∧
    (adp910_channel_read ch s smp).read_error_streak = n + 1 ∧
    (adp910_channel_read ch s smp).next_init_tick = ch.next_init_tick := by
  have hok := statusIsOk_eq_false_of_streakError s hs
  have hnot3 : ¬ (3 ≤ n + 1) := Nat.not_le.mpr hlow
  simp [adp910_channel_read, hready, hok, hs, hn, hcap, hnot3, UINT8_MAX,
    ADP910_READ_ERROR_STREAK_TO_REINIT]

/-- One streak-counting failed read that reaches the reinit threshold:
forces NOT_READY, resets the streak, leaves the retry deadline alone. -/
theorem read_streak_error_at_threshold (ch : adp910_channel_t)
    (s : adp910_status_t) (smp : adp910_sample_t) (n : Nat)
    (hready : ch.ready = true) (hs : statusIsStreakError s = true)
    (hn : ch.read_error_streak = n) (hhigh : 3 ≤ n + 1) (hcap : n < 255) :
    (adp910_channel_read ch s smp).ready = false ∧
    (adp910_channel_read ch s smp).read_error_streak = 0 ∧
    (adp910_channel_read ch s smp).next_init_tick = ch.next_init_tick := by
  have hok := statusIsOk_eq_false_of_streakError s hs
  simp [adp910_channel_read, hready, hok, hs, hn, hcap, hhigh, UINT8_MAX,
    ADP910_READ_ERROR_STREAK_TO_REINIT]

/-- C2: from READY with a fresh streak, three consecutive BusError reads
keep the channel READY through the first two failures, force
READY → NOT_READY exactly on the third, reset the streak to 0, leave the
retry deadline unchanged, and leave the channel immediately eligible for a
successful re-init at any tick past that unchanged deadline. -/
theorem c2_three_bus_errors_force_reinit (ch : adp910_channel_t)
    (s1 s2 s3 : adp910_sample_t)
    (hready : ch.ready = true) (hstreak : ch.read_error_streak = 0) :
    (adp910_channel_read ch .bus_error s1).ready = true ∧
    (adp910_channel_read (adp910_channel_read ch .bus_error s1)
      .bus_error s2).ready = true ∧
    (adp910_channel_read (adp910_channel_read (adp910_channel_read ch
      .bus_error s1) .bus_error s2) .bus_error s3).ready = false ∧
    (adp910_channel_read (adp910_channel_read (adp910_channel_read ch
      .bus_error s1) .bus_error s2) .bus_error s3).read_error_streak = 0 ∧
    (adp910_channel_read (adp910_channel_read (adp910_channel_read ch
      .bus_error s1) .bus_error s2) .bus_error s3).next_init_tick
      = ch.next_init_tick ∧
    (∀ now_tick, ch.next_init_tick ≤ now_tick →
      (adp910_channel_try_init (adp910_channel_read (adp910_channel_read
        (adp910_channel_read ch .bus_error s1) .bus_error s2) .bus_error s3)
        now_tick .ok).ready = true) := by
  have h1 := read_streak_error_below_threshold ch .bus_error s1 0 hready rfl
    hstreak (by omega) (by omega)
  have h2 := read_streak_error_below_threshold
    (adp910_channel_read ch .bus_error s1) .bus_error s2 1 h1.1 rfl h1.2.1
    (by omega) (by omega)
  have h3 := read_streak_error_at_threshold
    (adp910_channel_read (adp910_channel_read ch .bus_error s1) .bus_error s2)
    .bus_error s3 2 h2.1 rfl h2.2.1 (by omega) (by omega)
  have t3 : (adp910_channel_read (adp910_channel_read (adp910_channel_read ch
      .bus_error s1) .bus_error s2) .bus_error s3).next_init_tick
      = ch.next_init_tick := (h3.2.2.trans h2.2.2).trans h1.2.2
  refine ⟨h1.1, h2.1, h3.1, h3.2.1, t3, ?_⟩
  intro now_tick hnow
  have hnl : ¬ (now_tick < ch.next_init_tick) := Nat.not_lt.mpr hnow
  simp [adp910_channel_try_init, h3.1, t3, hnl, statusIsOk]

/-- Concrete evaluation of `c2_three_bus_errors_force_reinit`. -/
theorem c2_three_bus_errors_force_reinit_witness :
    witnessChannel.ready = true ∧ witnessChannel.read_error_streak = 0 ∧
    (adp910_channel_read (adp910_channel_read (adp910_channel_read
      witnessChannel .bus_error ⟨1, 2⟩) .bus_error ⟨1, 2⟩) .bus_error
      ⟨1, 2⟩).ready = false ∧
    (adp910_channel_read (adp910_channel_read (adp910_channel_read
      witnessChannel .bus_error ⟨1, 2⟩) .bus_error ⟨1, 2⟩) .bus_error
      ⟨1, 2⟩).next_init_tick = witnessChannel.next_init_tick ∧
    (adp910_channel_try_init (adp910_channel_read (adp910_channel_read
      (adp910_channel_read witnessChannel .bus_error ⟨1, 2⟩) .bus_error
      ⟨1, 2⟩) .bus_error ⟨1, 2⟩) 7 .ok).ready = true :=
  ⟨rfl, rfl,
   (c2_three_bus_errors_force_reinit witnessChannel ⟨1, 2⟩ ⟨1, 2⟩ ⟨1, 2⟩
     rfl rfl).2.2.1,
   (c2_three_bus_errors_force_reinit witnessChannel ⟨1, 2⟩ ⟨1, 2⟩ ⟨1, 2⟩
     rfl rfl).2.2.2.2.1,
   (c2_three_bus_errors_force_reinit witnessChannel ⟨1, 2⟩ ⟨1, 2⟩ ⟨1, 2⟩
     rfl rfl).2.2.2.2.2 7 (Nat.le_refl 7)⟩

/-- C3: any run of reads whose outcomes are all CrcMismatch,
InvalidArgument or unclassified leaves a READY channel READY and leaves
the forced-reinit error streak exactly where it was. -/
theorem c3_nonstreak_outcomes_never_force_reinit (ch : adp910_channel_t)
    (reads : List (adp910_status_t × adp910_sample_t))
    (hready : ch.ready = true)
    (hall : ∀ r ∈ reads, statusNonStreakFailure r.1) :
    (adp910_channel_read_all ch reads).ready = true ∧
    (adp910_channel_read_all ch reads).read_error_streak
      = ch.read_error_streak := by
  induction reads generalizing ch with
  | nil => exact ⟨hready, rfl⟩
  | cons r rs ih =>
    have hr : statusNonStreakFailure r.1 := hall r (List.mem_cons_self r rs)
    have step := read_nonstreak_preserves ch r.1 r.2 hr
    have hrest := ih (adp910_channel_read ch r.1 r.2)
      (by rw [step.1]; exact hready)
      (fun x hx => hall x (List.mem_cons_of_mem r hx))
    have hunfold : adp910_channel_read_all ch (r :: rs)
        = adp910_channel_read_all (adp910_channel_read ch r.1 r.2) rs := rfl
    rw [hunfold]
    exact ⟨hrest.1, hrest.2.trans step.2⟩

/-- Four consecutive non-streak failure reads for the concrete evaluation
of `c3_nonstreak_outcomes_never_force_reinit`. -/
def c3Reads : List (adp910_status_t × adp910_sample_t) :=
  [(.crc_mismatch, ⟨3, 4⟩), (.crc_mismatch, ⟨3, 4⟩),
   (.invalid_argument, ⟨0, 0⟩), (.unknown, ⟨0, 0⟩)]

/-- Concrete evaluation of `c3_nonstreak_outcomes_never_force_reinit`. -/
theorem c3_nonstreak_outcomes_never_force_reinit_witness :
    witnessChannel.ready = true ∧
    (adp910_channel_read_all witnessChannel c3Reads).ready = true ∧
    (adp910_channel_read_all witnessChannel c3Reads).read_error_streak
      = witnessChannel.read_error_streak :=
  ⟨rfl,
   (c3_nonstreak_outcomes_never_force_reinit witnessChannel c3Reads rfl
     (by decide)).1,
   (c3_nonstreak_outcomes_never_force_reinit witnessChannel c3Reads rfl
     (by decide)).2⟩

/-- Fan ingestion leaves the sequence number alone. -/
theorem afs_seq (c : blower_metrics_service_context_t)
    (f : Option adp910_sample_t) (v : Bool) :
    (apply_fan_sample c f v).snapshot.update_sequence
      = c.snapshot.update_sequence := by
  cases v <;> cases f <;> rfl

/-- Fan ingestion leaves the initialized flag alone. -/
theorem afs_init (c : blower_metrics_service_context_t)
    (f : Option adp910_sample_t) (v : Bool) :
    (apply_fan_sample c f v).is_initialized = c.is_initialized := by
  cases v <;> cases f <;> rfl

/-- Envelope ingestion leaves the sequence number alone. -/
theorem aes_seq (c : blower_metrics_service_context_t)
    (e : Option adp910_sample_t) (w : Bool) :
    (apply_envelope_sample c e w).snapshot.update_sequence
      = c.snapshot.update_sequence := by
  cases w <;> cases e <;> rfl

/-- Envelope ingestion leaves the initialized flag alone. -/
theorem aes_init (c : blower_metrics_service_context_t)
    (e : Option adp910_sample_t) (w : Bool) :
    (apply_envelope_sample c e w).is_initialized = c.is_initialized := by
  cases w <;> cases e <;> rfl

/-- The calibration block leaves the sequence number alone. -/
theorem acal_seq (c : blower_metrics_service_context_t)
    (f : Option adp910_sample_t) (v : Bool) (e : Option adp910_sample_t)
    (w : Bool) (t : Nat) :
    (apply_calibration c f v e w t).snapshot.update_sequence
      = c.snapshot.update_sequence := by
  simp only [apply_calibration]
  repeat' split
  all_goals rfl

/-- The calibration block leaves the initialized flag alone. -/
theorem acal_init (c : blower_metrics_service_context_t)
    (f : Option adp910_sample_t) (v : Bool) (e : Option adp910_sample_t)
    (w : Bool) (t : Nat) :
    (apply_calibration c f v e w t).is_initialized = c.is_initialized := by
  simp only [apply_calibration]
  repeat' split
  all_goals rfl

/-- The commit tail bumps the sequence by exactly one modulo 2^32. -/
theorem amc_seq (c : blower_metrics_service_context_t) (t : Nat) :
    (apply_models_and_commit c t).snapshot.update_sequence
      = (c.snapshot.update_sequence + 1) % UINT32_MOD := rfl

/-- The commit tail leaves the initialized flag alone. -/
theorem amc_init (c : blower_metrics_service_context_t) (t : Nat) :
    (apply_models_and_commit c t).is_initialized = c.is_initialized := rfl

/-- Embeds `update` on an initialized service bumps the sequence by exactly one
modulo 2^32. -/
theorem update_seq (c : blower_metrics_service_context_t)
    (f : Option adp910_sample_t) (v : Bool) (e : Option adp910_sample_t)
    (w : Bool) (t : Nat) (hinit : c.is_initialized = true) :
    (blower_metrics_service_update c f v e w t).snapshot.update_sequence
      = (c.snapshot.update_sequence + 1) % UINT32_MOD := by
  rw [blower_metrics_service_update]
  simp only [hinit, if_true]
  rw [amc_seq, acal_seq, aes_seq, afs_seq]

/-- Embeds `update` always leaves the service initialized. -/
theorem update_is_initialized (c : blower_metrics_service_context_t)
    (f : Option adp910_sample_t) (v : Bool) (e : Option adp910_sample_t)
    (w : Bool) (t : Nat) :
    (blower_metrics_service_update c f v e w t).is_initialized = true := by
  rw [blower_metrics_service_update]
  simp only [amc_init, acal_init, aes_init, afs_init]
  cases h : c.is_initialized <;>
    simp [h, blower_metrics_service_initialize]

/-- Embeds `capture_zero_offsets` either reports nothing captured and leaves the
whole context untouched, or reports a capture and bumps the sequence by
exactly one modulo 2^32 (preserving the initialized flag). -/
theorem capture_cases (c : blower_metrics_service_context_t) (t : Nat) :
    blower_metrics_service_capture_zero_offsets c t = (c, false) ∨
    ((blower_metrics_service_capture_zero_offsets c t).2 = true ∧
     (blower_metrics_service_capture_zero_offsets c t).1.snapshot.update_sequence
       = (c.snapshot.update_sequence + 1) % UINT32_MOD ∧
     (blower_metrics_service_capture_zero_offsets c t).1.is_initialized
       = c.is_initialized) := by
  cases hinit : c.is_initialized with
  | false => left; simp [blower_metrics_service_capture_zero_offsets, hinit]
  | true =>
    cases hf : c.snapshot.fan_sample_valid && c.has_last_fan_pressure_raw with
    | false =>
      cases he : c.snapshot.envelope_sample_valid &&
          c.has_last_envelope_pressure_raw with
      | false =>
        left
        simp [blower_metrics_service_capture_zero_offsets, hinit, hf, he]
      | true =>
        right
        simp [blower_metrics_service_capture_zero_offsets, hinit, hf, he]
    | true =>
      right
      cases he : c.snapshot.envelope_sample_valid &&
          c.has_last_envelope_pressure_raw with
      | false =>
        simp [blower_metrics_service_capture_zero_offsets, hinit, hf, he]
      | true =>
        simp [blower_metrics_service_capture_zero_offsets, hinit, hf, he]

/-- Embeds `begin_calibration` leaves the sequence number and the initialized
flag alone. -/
theorem begin_cal_seq_init (c : blower_metrics_service_context_t) (t : Nat) :
    (blower_metrics_service_begin_calibration c t).snapshot.update_sequence
      = c.snapshot.update_sequence ∧
    (blower_metrics_service_begin_calibration c t).is_initialized
      = c.is_initialized := by
  unfold blower_metrics_service_begin_calibration
  split <;> exact ⟨rfl, rfl⟩

/-- One service call from an initialized state: stays initialized, and
the sequence number advances by exactly the call's commit count,
modulo 2^32. -/
theorem service_step_commits (c : blower_metrics_service_context_t)
    (op : service_op) (hinit : c.is_initialized = true)
    (hseq : c.snapshot.update_sequence < UINT32_MOD) :
    (service_step c op).is_initialized = true ∧
    (service_step c op).snapshot.update_sequence
      = (c.snapshot.update_sequence + service_op_commits c op) % UINT32_MOD := by
  cases op with
  | update f v e w t =>
    exact ⟨update_is_initialized c f v e w t,
      update_seq c f v e w t hinit⟩
  | capture_zero t =>
    rcases capture_cases c t with h | ⟨h2, hs, hi⟩
    · refine ⟨?_, ?_⟩
      · show (blower_metrics_service_capture_zero_offsets c t).1.is_initialized
          = true
        rw [h]; exact hinit
      · show (blower_metrics_service_capture_zero_offsets c t).1.snapshot.update_sequence
          = (c.snapshot.update_sequence + service_op_commits c (.capture_zero t))
            % UINT32_MOD
        have h2 : (blower_metrics_service_capture_zero_offsets c t).2 = false := by
          rw [h]
        simp [h, service_op_commits, h2, Nat.mod_eq_of_lt hseq]
    · refine ⟨hi.trans hinit, ?_⟩
      show (blower_metrics_service_capture_zero_offsets c t).1.snapshot.update_sequence
        = (c.snapshot.update_sequence + service_op_commits c (.capture_zero t))
          % UINT32_MOD
      simp [service_op_commits, h2, hs]
  | begin_cal t =>
    refine ⟨(begin_cal_seq_init c t).2.trans hinit, ?_⟩
    show (blower_metrics_service_begin_calibration c t).snapshot.update_sequence
      = (c.snapshot.update_sequence + service_op_commits c (.begin_cal t))
        % UINT32_MOD
    simp [service_op_commits, (begin_cal_seq_init c t).1, Nat.mod_eq_of_lt hseq]
  | get_snap =>
    exact ⟨hinit, by simp [service_step, service_op_commits,
      Nat.mod_eq_of_lt hseq]⟩

/-- C1: along any sequence of service calls starting from an initialized
service, the published `update_sequence` equals its initial value plus the
number of committed mutations (every `update`, plus every
`capture_zero_offsets` that actually captured), modulo 2^32; in
particular it advances by exactly one per commit and wraparound is the
only way it ever gets numerically smaller. -/
theorem c1_update_sequence_trace (c : blower_metrics_service_context_t)
    (ops : List service_op) (hinit : c.is_initialized = true)
    (hseq : c.snapshot.update_sequence < UINT32_MOD) :
    (service_run c ops).snapshot.update_sequence
      = (c.snapshot.update_sequence + service_commit_count c ops)
        % UINT32_MOD := by
  induction ops generalizing c with
  | nil => simp [service_run, service_commit_count, Nat.mod_eq_of_lt hseq]
  | cons op ops ih =>
    obtain ⟨hstep_init, hstep_seq⟩ := service_step_commits c op hinit hseq
    have hstep_lt : (service_step c op).snapshot.update_sequence
        < UINT32_MOD := by
      rw [hstep_seq]
      exact Nat.mod_lt _ (by norm_num [UINT32_MOD])
    have hrest := ih (service_step c op) hstep_init hstep_lt
    show (service_run (service_step c op) ops).snapshot.update_sequence
      = (c.snapshot.update_sequence +
          (service_op_commits c op + service_commit_count (service_step c op) ops))
        % UINT32_MOD
    rw [hrest, hstep_seq, Nat.mod_add_mod, Nat.add_assoc]

/-- Fan ingestion leaves the calibration accumulator alone. -/
theorem afs_cal (c : blower_metrics_service_context_t)
    (f : Option adp910_sample_t) (v : Bool) :
    (apply_fan_sample c f v).cal = c.cal := by
  cases v <;> cases f <;> rfl

/-- Envelope ingestion leaves the calibration accumulator alone. -/
theorem aes_cal (c : blower_metrics_service_context_t)
    (e : Option adp910_sample_t) (w : Bool) :
    (apply_envelope_sample c e w).cal = c.cal := by
  cases w <;> cases e <;> rfl

/-- Ingesting an absent fan sample (whatever the validity flag says) only
clears the fan validity flag. -/
theorem afs_none (c : blower_metrics_service_context_t) (v : Bool) :
    apply_fan_sample c none v
      = { c with snapshot := { c.snapshot with fan_sample_valid := false } } := by
  cases v <;> rfl

/-- Ingesting an absent envelope sample (whatever the validity flag says)
only clears the envelope validity flag. -/
theorem aes_none (c : blower_metrics_service_context_t) (w : Bool) :
    apply_envelope_sample c none w
      = { c with snapshot :=
          { c.snapshot with envelope_sample_valid := false } } := by
  cases w <;> rfl

/-- The commit tail touches only the derived units, the sequence and the
timestamp: calibration state, progress, accumulator, offsets, pressures,
temperatures, validity flags and raw caches all pass through. -/
theorem amc_frame (c : blower_metrics_service_context_t) (t : Nat) :
    (apply_models_and_commit c t).snapshot.calibration_state
      = c.snapshot.calibration_state ∧
    (apply_models_and_commit c t).snapshot.calibration_progress_pct
      = c.snapshot.calibration_progress_pct ∧
    (apply_models_and_commit c t).cal = c.cal ∧
    (apply_models_and_commit c t).fan_pressure_offset_pa
      = c.fan_pressure_offset_pa ∧
    (apply_models_and_commit c t).envelope_pressure_offset_pa
      = c.envelope_pressure_offset_pa ∧
    (apply_models_and_commit c t).snapshot.fan_pressure_pa
      = c.snapshot.fan_pressure_pa ∧
    (apply_models_and_commit c t).snapshot.envelope_pressure_pa
      = c.snapshot.envelope_pressure_pa ∧
    (apply_models_and_commit c t).snapshot.fan_temperature_c
      = c.snapshot.fan_temperature_c ∧
    (apply_models_and_commit c t).snapshot.fan_sample_valid
      = c.snapshot.fan_sample_valid ∧
    (apply_models_and_commit c t).last_fan_pressure_raw_pa
      = c.last_fan_pressure_raw_pa ∧
    (apply_models_and_commit c t).has_last_fan_pressure_raw
      = c.has_last_fan_pressure_raw ∧
    (apply_models_and_commit c t).models = c.models :=
  ⟨rfl, rfl, rfl, rfl, rfl, rfl, rfl, rfl, rfl, rfl, rfl, rfl⟩

/-- Unfolding `update` on an already initialized service into its four
stages. -/
theorem update_unfold (ctx : blower_metrics_service_context_t)
    (f : Option adp910_sample_t) (v : Bool) (e : Option adp910_sample_t)
    (w : Bool) (t : Nat) (hinit : ctx.is_initialized = true) :
    blower_metrics_service_update ctx f v e w t
      = apply_models_and_commit
          (apply_calibration
            (apply_envelope_sample (apply_fan_sample ctx f v) e w)
            f v e w t) t := by
  rw [blower_metrics_service_update]
  simp [hinit]

/-- During an active window, strictly before the duration elapses, the
calibration block reports Sampling with the capped percentage. -/
theorem acal_sampling (c : blower_metrics_service_context_t)
    (f : Option adp910_sample_t) (v : Bool) (e : Option adp910_sample_t)
    (w : Bool) (t : Nat) (hact : c.cal.active = true)
    (hlt : calElapsedMs t c.cal.start_tick < CALIBRATION_DURATION_MS) :
    (apply_calibration c f v e w t).snapshot.calibration_state = .sampling ∧
    (apply_calibration c f v e w t).snapshot.calibration_progress_pct
      = (if calElapsedMs t c.cal.start_tick * 100 % UINT32_MOD
            / CALIBRATION_DURATION_MS > 99
         then 99
         else calElapsedMs t c.cal.start_tick * 100 % UINT32_MOD
            / CALIBRATION_DURATION_MS) := by
  simp [apply_calibration, hact, hlt]

/-- During an active window, at or past the duration, the calibration
block reports Done with progress 100 and deactivates the accumulator. -/
theorem acal_finalize (c : blower_metrics_service_context_t)
    (f : Option adp910_sample_t) (v : Bool) (e : Option adp910_sample_t)
    (w : Bool) (t : Nat) (hact : c.cal.active = true)
    (hge : ¬ (calElapsedMs t c.cal.start_tick < CALIBRATION_DURATION_MS)) :
    (apply_calibration c f v e w t).snapshot.calibration_state = .done ∧
    (apply_calibration c f v e w t).snapshot.calibration_progress_pct = 100 ∧
    (apply_calibration c f v e w t).cal.active = false := by
  simp [apply_calibration, hact, hge]

/-- Finalization with no sample ingested on the final cycle: each role's
offset and published pressure are rewritten exactly when that role's
accumulated count meets the minimum. -/
theorem acal_finalize_none (c : blower_metrics_service_context_t) (t : Nat)
    (hact : c.cal.active = true)
    (hge : ¬ (calElapsedMs t c.cal.start_tick < CALIBRATION_DURATION_MS)) :
    (apply_calibration c none false none false t).fan_pressure_offset_pa
      = (if c.cal.fan_count ≥ CALIBRATION_MIN_SAMPLES
         then c.cal.fan_sum / (c.cal.fan_count : Rat)
         else c.fan_pressure_offset_pa) ∧
    (apply_calibration c none false none false t).snapshot.fan_pressure_pa
      = (if c.cal.fan_count ≥ CALIBRATION_MIN_SAMPLES
         then c.last_fan_pressure_raw_pa - c.cal.fan_sum / (c.cal.fan_count : Rat)
         else c.snapshot.fan_pressure_pa) ∧
    (apply_calibration c none false none false t).envelope_pressure_offset_pa
      = (if c.cal.envelope_count ≥ CALIBRATION_MIN_SAMPLES
         then c.cal.envelope_sum / (c.cal.envelope_count : Rat)
         else c.envelope_pressure_offset_pa) ∧
    (apply_calibration c none false none false t).snapshot.envelope_pressure_pa
      = (if c.cal.envelope_count ≥ CALIBRATION_MIN_SAMPLES
         then c.last_envelope_pressure_raw_pa -
           c.cal.envelope_sum / (c.cal.envelope_count : Rat)
         else c.snapshot.envelope_pressure_pa) := by
  rcases Nat.lt_or_ge c.cal.fan_count CALIBRATION_MIN_SAMPLES with hf | hf <;>
    rcases Nat.lt_or_ge c.cal.envelope_count CALIBRATION_MIN_SAMPLES
      with he | he <;>
    simp [apply_calibration, hact, hge, hf, he,
      Nat.not_le.mpr hf, Nat.not_le.mpr he]

/-- C4: with a calibration window armed at tick T (any number of updates
may already have happened since), an `update` at elapsed time E strictly
inside the 10000 ms window reports Sampling with progress
min(99, ⌊E·100/10000⌋), and an `update` at E at or past the window
reports Done with progress exactly 100 and deactivates the accumulator. -/
theorem c4_calibration_progress (ctx : blower_metrics_service_context_t)
    (T E : Nat) (f : Option adp910_sample_t) (v : Bool)
    (e : Option adp910_sample_t) (w : Bool)
    (hinit : ctx.is_initialized = true) (hact : ctx.cal.active = true)
    (hstart : ctx.cal.start_tick = T % UINT32_MOD) (hE : E < UINT32_MOD) :
    (E < CALIBRATION_DURATION_MS →
      (blower_metrics_service_update ctx f v e w
        (T + E)).snapshot.calibration_state = .sampling ∧
      (blower_metrics_service_update ctx f v e w
        (T + E)).snapshot.calibration_progress_pct
          = min 99 (E * 100 / CALIBRATION_DURATION_MS)) ∧
    (CALIBRATION_DURATION_MS ≤ E →
      (blower_metrics_service_update ctx f v e w
        (T + E)).snapshot.calibration_state = .done ∧
      (blower_metrics_service_update ctx f v e w
        (T + E)).snapshot.calibration_progress_pct = 100 ∧
      (blower_metrics_service_update ctx f v e w (T + E)).cal.active
        = false) := by
  have hcalb : (apply_envelope_sample (apply_fan_sample ctx f v) e w).cal
      = ctx.cal := (aes_cal _ _ _).trans (afs_cal _ _ _)
  have helapsed : calElapsedMs (T + E)
      (apply_envelope_sample (apply_fan_sample ctx f v) e w).cal.start_tick
      = E := by
    rw [hcalb, hstart]
    simp only [calElapsedMs, tickSub, portTICK_PERIOD_MS, UINT32_MOD] at hE ⊢
    omega
  have hactb : (apply_envelope_sample
      (apply_fan_sample ctx f v) e w).cal.active = true := by
    rw [hcalb]; exact hact
  constructor
  · intro hlt
    have hs := acal_sampling (apply_envelope_sample (apply_fan_sample ctx f v)
      e w) f v e w (T + E) hactb (by rw [helapsed]; exact hlt)
    rw [update_unfold ctx f v e w (T + E) hinit]
    refine ⟨?_, ?_⟩
    · rw [(amc_frame _ _).1, hs.1]
    · rw [(amc_frame _ _).2.1, hs.2, helapsed]
      simp only [UINT32_MOD, CALIBRATION_DURATION_MS] at hlt ⊢
      have hsmall : E * 100 % 4294967296 = E * 100 :=
        Nat.mod_eq_of_lt (by omega)
      rw [hsmall]
      split <;> omega
  · intro hge
    have hgeb : ¬ (calElapsedMs (T + E)
        (apply_envelope_sample (apply_fan_sample ctx f v) e w).cal.start_tick
        < CALIBRATION_DURATION_MS) := by
      rw [helapsed]; omega
    have hs := acal_finalize (apply_envelope_sample (apply_fan_sample ctx f v)
      e w) f v e w (T + E) hactb hgeb
    rw [update_unfold ctx f v e w (T + E) hinit]
    refine ⟨?_, ?_, ?_⟩
    · rw [(amc_frame _ _).1, hs.1]
    · rw [(amc_frame _ _).2.1, hs.2.1]
    · rw [(amc_frame _ _).2.2.1]
      exact hs.2.2

/-- A service context with an armed calibration window started at tick 0
(for concrete evaluations of the window theorems). -/
def c4Ctx : blower_metrics_service_context_t :=
  blower_metrics_service_begin_calibration initCtx 0

/-- Concrete evaluation of `c4_calibration_progress` at E = 5000 (mid
window) and E = 10000 (finalization). -/
theorem c4_calibration_progress_witness :
    c4Ctx.is_initialized = true ∧ c4Ctx.cal.active = true ∧
    (blower_metrics_service_update c4Ctx none false none false
      (0 + 5000)).snapshot.calibration_state = .sampling ∧
    (blower_metrics_service_update c4Ctx none false none false
      (0 + 5000)).snapshot.calibration_progress_pct
        = min 99 (5000 * 100 / CALIBRATION_DURATION_MS) ∧
    (blower_metrics_service_update c4Ctx none false none false
      (0 + 10000)).snapshot.calibration_state = .done ∧
    (blower_metrics_service_update c4Ctx none false none false
      (0 + 10000)).snapshot.calibration_progress_pct = 100 ∧
    (blower_metrics_service_update c4Ctx none false none false
      (0 + 10000)).cal.active = false :=
  ⟨rfl, rfl,
   ((c4_calibration_progress c4Ctx 0 5000 none false none false rfl rfl rfl
     (by decide)).1 (by decide)).1,
   ((c4_calibration_progress c4Ctx 0 5000 none false none false rfl rfl rfl
     (by decide)).1 (by decide)).2,
   ((c4_calibration_progress c4Ctx 0 10000 none false none false rfl rfl rfl
     (by decide)).2 (by decide)).1,
   ((c4_calibration_progress c4Ctx 0 10000 none false none false rfl rfl rfl
     (by decide)).2 (by decide)).2.1,
   ((c4_calibration_progress c4Ctx 0 10000 none false none false rfl rfl rfl
     (by decide)).2 (by decide)).2.2⟩

/-- C5: when the window elapses (finalizing update carrying no valid
sample), each role is finalized independently: a role short of the
20-sample minimum keeps its previous offset, a role meeting it gets the
mean of its accumulated pressures as its offset and its published
pressure immediately recomputed against that new offset. -/
theorem c5_finalize_per_role (ctx : blower_metrics_service_context_t)
    (t : Nat) (hinit : ctx.is_initialized = true)
    (hact : ctx.cal.active = true)
    (hge : ¬ (calElapsedMs t ctx.cal.start_tick < CALIBRATION_DURATION_MS)) :
    (ctx.cal.fan_count < CALIBRATION_MIN_SAMPLES →
      (blower_metrics_service_update ctx none false none false
        t).fan_pressure_offset_pa = ctx.fan_pressure_offset_pa) ∧
    (ctx.cal.fan_count ≥ CALIBRATION_MIN_SAMPLES →
      (blower_metrics_service_update ctx none false none false
        t).fan_pressure_offset_pa
          = ctx.cal.fan_sum / (ctx.cal.fan_count : Rat) ∧
      (blower_metrics_service_update ctx none false none false
        t).snapshot.fan_pressure_pa
          = ctx.last_fan_pressure_raw_pa -
            ctx.cal.fan_sum / (ctx.cal.fan_count : Rat)) ∧
    (ctx.cal.envelope_count < CALIBRATION_MIN_SAMPLES →
      (blower_metrics_service_update ctx none false none false
        t).envelope_pressure_offset_pa = ctx.envelope_pressure_offset_pa) ∧
    (ctx.cal.envelope_count ≥ CALIBRATION_MIN_SAMPLES →
      (blower_metrics_service_update ctx none false none false
        t).envelope_pressure_offset_pa
          = ctx.cal.envelope_sum / (ctx.cal.envelope_count : Rat) ∧
      (blower_metrics_service_update ctx none false none false
        t).snapshot.envelope_pressure_pa
          = ctx.last_envelope_pressure_raw_pa -
            ctx.cal.envelope_sum / (ctx.cal.envelope_count : Rat)) := by
  have h := acal_finalize_none
    (apply_envelope_sample (apply_fan_sample ctx none false) none false)
    t hact hge
  rw [update_unfold ctx none false none false t hinit]
  refine ⟨?_, ?_, ?_, ?_⟩
  · intro hlt
    have hc : ¬ ((apply_envelope_sample (apply_fan_sample ctx none false)
        none false).cal.fan_count ≥ CALIBRATION_MIN_SAMPLES) :=
      Nat.not_le.mpr hlt
    rw [(amc_frame _ _).2.2.2.1, h.1, if_neg hc]
    rfl
  · intro hge2
    have hc : (apply_envelope_sample (apply_fan_sample ctx none false)
        none false).cal.fan_count ≥ CALIBRATION_MIN_SAMPLES := hge2
    exact ⟨by rw [(amc_frame _ _).2.2.2.1, h.1, if_pos hc]; rfl,
           by rw [(amc_frame _ _).2.2.2.2.2.1, h.2.1, if_pos hc]; rfl⟩
  · intro hlt
    have hc : ¬ ((apply_envelope_sample (apply_fan_sample ctx none false)
        none false).cal.envelope_count ≥ CALIBRATION_MIN_SAMPLES) :=
      Nat.not_le.mpr hlt
    rw [(amc_frame _ _).2.2.2.2.1, h.2.2.1, if_neg hc]
    rfl
  · intro hge2
    have hc : (apply_envelope_sample (apply_fan_sample ctx none false)
        none false).cal.envelope_count ≥ CALIBRATION_MIN_SAMPLES := hge2
    exact ⟨by rw [(amc_frame _ _).2.2.2.2.1, h.2.2.1, if_pos hc]; rfl,
           by rw [(amc_frame _ _).2.2.2.2.2.2.1, h.2.2.2, if_pos hc]; rfl⟩

/-- A context mid calibration window with 10 accumulated fan samples and
25 accumulated envelope samples (sum 50). -/
def c5Ctx : blower_metrics_service_context_t :=
  { initCtx with
    last_envelope_pressure_raw_pa := 4
    cal := { active := true, start_tick := 0, fan_sum := 7,
             envelope_sum := 50, fan_count := 10, envelope_count := 25 } }

/-- Concrete evaluation of `c5_finalize_per_role`: 10 fan samples leave
the fan offset alone, 25 envelope samples set the envelope offset to the
mean 50/25 = 2 and republish envelope pressure 4 − 2. -/
theorem c5_finalize_per_role_witness :
    c5Ctx.is_initialized = true ∧ c5Ctx.cal.active = true ∧
    c5Ctx.cal.fan_count < CALIBRATION_MIN_SAMPLES ∧
    c5Ctx.cal.envelope_count ≥ CALIBRATION_MIN_SAMPLES ∧
    (blower_metrics_service_update c5Ctx none false none false
      10000).fan_pressure_offset_pa = c5Ctx.fan_pressure_offset_pa ∧
    (blower_metrics_service_update c5Ctx none false none false
      10000).envelope_pressure_offset_pa
        = c5Ctx.cal.envelope_sum / (c5Ctx.cal.envelope_count : Rat) ∧
    (blower_metrics_service_update c5Ctx none false none false
      10000).snapshot.envelope_pressure_pa
        = c5Ctx.last_envelope_pressure_raw_pa -
          c5Ctx.cal.envelope_sum / (c5Ctx.cal.envelope_count : Rat) :=
  ⟨rfl, rfl, by decide, by decide,
   (c5_finalize_per_role c5Ctx 10000 rfl rfl (by decide)).1 (by decide),
   ((c5_finalize_per_role c5Ctx 10000 rfl rfl (by decide)).2.2.2
     (by decide)).1,
   ((c5_finalize_per_role c5Ctx 10000 rfl rfl (by decide)).2.2.2
     (by decide)).2⟩

/-- A mixed call sequence for the concrete evaluation of the sequence
trace: two updates and one successful capture commit, the failed capture,
the begin and the read do not. -/
def c1Ops : List service_op :=
  [.update none false none false 1,
   .capture_zero 2,
   .begin_cal 3,
   .get_snap,
   .update (some ⟨5, 21⟩) true none false 4,
   .capture_zero 5]

/-- Concrete evaluation of `c1_update_sequence_trace`. -/
theorem c1_update_sequence_trace_witness :
    initCtx.is_initialized = true ∧
    initCtx.snapshot.update_sequence < UINT32_MOD ∧
    (service_run initCtx c1Ops).snapshot.update_sequence
      = (initCtx.snapshot.update_sequence + service_commit_count initCtx c1Ops)
        % UINT32_MOD :=
  ⟨rfl, by decide,
   c1_update_sequence_trace initCtx c1Ops rfl (by decide)⟩

/-- C6: when neither role has a currently valid sample together with a
cached raw reading, `capture_zero_offsets` reports nothing captured and
returns the context — snapshot, sequence number, offsets and derived
metrics — completely unchanged. -/
theorem c6_capture_nothing_leaves_state (ctx : blower_metrics_service_context_t)
    (t : Nat)
    (hfan : (ctx.snapshot.fan_sample_valid &&
      ctx.has_last_fan_pressure_raw) = false)
    (henv : (ctx.snapshot.envelope_sample_valid &&
      ctx.has_last_envelope_pressure_raw) = false) :
    blower_metrics_service_capture_zero_offsets ctx t = (ctx, false) := by
  cases hinit : ctx.is_initialized <;>
    simp [blower_metrics_service_capture_zero_offsets, hinit, hfan, henv]

/-- Concrete evaluation of `c6_capture_nothing_leaves_state` on a freshly
initialized service (no valid samples, no cached raws). -/
theorem c6_capture_nothing_leaves_state_witness :
    (initCtx.snapshot.fan_sample_valid &&
      initCtx.has_last_fan_pressure_raw) = false ∧
    (initCtx.snapshot.envelope_sample_valid &&
      initCtx.has_last_envelope_pressure_raw) = false ∧
    blower_metrics_service_capture_zero_offsets initCtx 3 = (initCtx, false) :=
  ⟨rfl, rfl, c6_capture_nothing_leaves_state initCtx 3 rfl rfl⟩

/-- C7: when at least one role is eligible, `capture_zero_offsets`
reports a capture, the immediately following `get_snapshot` succeeds with
the new snapshot, every captured role's published pressure reads exactly
0, and the published fan-speed and leakage equal the post-capture
pressures fed through the installed model pipeline. -/
theorem c7_capture_roundtrip (ctx : blower_metrics_service_context_t)
    (t : Nat) (hinit : ctx.is_initialized = true)
    (hsome : (ctx.snapshot.fan_sample_valid &&
        ctx.has_last_fan_pressure_raw) = true ∨
      (ctx.snapshot.envelope_sample_valid &&
        ctx.has_last_envelope_pressure_raw) = true) :
    (blower_metrics_service_capture_zero_offsets ctx t).2 = true ∧
    blower_metrics_service_get_snapshot
        (blower_metrics_service_capture_zero_offsets ctx t).1
      = some (blower_metrics_service_capture_zero_offsets ctx t).1.snapshot ∧
    ((ctx.snapshot.fan_sample_valid &&
        ctx.has_last_fan_pressure_raw) = true →
      (blower_metrics_service_capture_zero_offsets
        ctx t).1.snapshot.fan_pressure_pa = 0) ∧
    ((ctx.snapshot.envelope_sample_valid &&
        ctx.has_last_envelope_pressure_raw) = true →
      (blower_metrics_service_capture_zero_offsets
        ctx t).1.snapshot.envelope_pressure_pa = 0) ∧
    (blower_metrics_service_capture_zero_offsets
        ctx t).1.snapshot.fan_speed_units
      = ctx.models.fan_speed_model
        (blower_metrics_service_capture_zero_offsets
          ctx t).1.snapshot.fan_pressure_pa ∧
    (blower_metrics_service_capture_zero_offsets
        ctx t).1.snapshot.estimated_air_leakage_units
      = ctx.models.air_leakage_model
        (blower_metrics_service_capture_zero_offsets
          ctx t).1.snapshot.fan_speed_units
        (blower_metrics_service_capture_zero_offsets
          ctx t).1.snapshot.envelope_pressure_pa := by
  cases hf : ctx.snapshot.fan_sample_valid && ctx.has_last_fan_pressure_raw with
  | false =>
    cases he : ctx.snapshot.envelope_sample_valid &&
        ctx.has_last_envelope_pressure_raw with
    | false =>
      rcases hsome with h | h
      · rw [hf] at h; exact absurd h (by simp)
      · rw [he] at h; exact absurd h (by simp)
    | true =>
      simp [blower_metrics_service_capture_zero_offsets,
        blower_metrics_service_get_snapshot, hinit, hf, he]
  | true =>
    cases he : ctx.snapshot.envelope_sample_valid &&
        ctx.has_last_envelope_pressure_raw with
    | false =>
      simp [blower_metrics_service_capture_zero_offsets,
        blower_metrics_service_get_snapshot, hinit, hf, he]
    | true =>
      simp [blower_metrics_service_capture_zero_offsets,
        blower_metrics_service_get_snapshot, hinit, hf, he]

/-- A context that has ingested one valid fan sample (pressure 5 Pa),
making the fan role eligible for zero capture. -/
def c7Ctx : blower_metrics_service_context_t :=
  blower_metrics_service_update initCtx (some ⟨5, 21⟩) true none false 0

/-- Concrete evaluation of `c7_capture_roundtrip`. -/
theorem c7_capture_roundtrip_witness :
    c7Ctx.is_initialized = true ∧
    (c7Ctx.snapshot.fan_sample_valid &&
      c7Ctx.has_last_fan_pressure_raw) = true ∧
    (blower_metrics_service_capture_zero_offsets c7Ctx 1).2 = true ∧
    (blower_metrics_service_capture_zero_offsets
      c7Ctx 1).1.snapshot.fan_pressure_pa = 0 ∧
    (blower_metrics_service_capture_zero_offsets
        c7Ctx 1).1.snapshot.fan_speed_units
      = c7Ctx.models.fan_speed_model
        (blower_metrics_service_capture_zero_offsets
          c7Ctx 1).1.snapshot.fan_pressure_pa :=
  ⟨by decide, by decide,
   (c7_capture_roundtrip c7Ctx 1 (by decide) (Or.inl (by decide))).1,
   (c7_capture_roundtrip c7Ctx 1 (by decide) (Or.inl (by decide))).2.2.1
     (by decide),
   (c7_capture_roundtrip c7Ctx 1 (by decide) (Or.inl (by decide))).2.2.2.2.1⟩

/-- A non-default, complete model pipeline for exercising `initialize`. -/
def customModels : blower_metrics_models_t where
  fan_speed_model := some (fun p => p + 1)
  air_leakage_model := some (fun s p => s * p)

/-- A service initialized with `customModels` installed. -/
def customCtx : blower_metrics_service_context_t :=
  blower_metrics_service_initialize initCtx (some customModels)

/-- C8 counterexample: re-initializing with no models does NOT leave the
previously installed pipeline in place — it replaces it with the built-in
defaults, observably changing the fan-speed model's value at pressure 1
from 2 to 1. -/
theorem c8_models_replaced_counterexample :
    customCtx.models.fan_speed_model 1 = 2 ∧
    ( blower_metrics_service_initialize customCtx
        none).models.fan_speed_model 1 = 1 ∧
    ( blower_metrics_service_initialize customCtx
        none).models.fan_speed_model 1
      ≠ customCtx.models.fan_speed_model 1 := by
  refine ⟨?_, ?_, ?_⟩ <;>
    norm_num [customCtx, customModels, blower_metrics_service_initialize,
      defaultServiceModels, blower_linear_fan_speed_model, blower_absf]

/-- C8 (amended): `initialize` is idempotent and resets the snapshot,
the offsets, the cached raw readings and the calibration accumulator on
every call; but when the models argument is absent or incomplete it
installs the built-in linear defaults, replacing whatever pipeline was
configured before; a complete argument installs exactly the supplied
pipeline. -/
theorem c8_initialize_resets_installs_defaults
    (ctx : blower_metrics_service_context_t)
    (m : Option blower_metrics_models_t) :
    blower_metrics_service_initialize
        ( blower_metrics_service_initialize ctx m) m
      = blower_metrics_service_initialize ctx m ∧
    ( blower_metrics_service_initialize ctx m).snapshot = emptySnapshot ∧
    ( blower_metrics_service_initialize ctx m).fan_pressure_offset_pa = 0 ∧
    ( blower_metrics_service_initialize ctx m).envelope_pressure_offset_pa
      = 0 ∧
    ( blower_metrics_service_initialize ctx m).last_fan_pressure_raw_pa
      = 0 ∧
    ( blower_metrics_service_initialize ctx m).last_envelope_pressure_raw_pa
      = 0 ∧
    ( blower_metrics_service_initialize ctx m).has_last_fan_pressure_raw
      = false ∧
    ( blower_metrics_service_initialize ctx m).has_last_envelope_pressure_raw
      = false ∧
    ( blower_metrics_service_initialize ctx m).cal = emptyCalAccumulator ∧
    ( blower_metrics_service_initialize ctx m).is_initialized = true ∧
    ( blower_metrics_service_initialize ctx none).models
      = defaultServiceModels ∧
    (∀ lm, ( blower_metrics_service_initialize ctx
        (some ⟨none, lm⟩)).models = defaultServiceModels) ∧
    (∀ fm, ( blower_metrics_service_initialize ctx
        (some ⟨fm, none⟩)).models = defaultServiceModels) ∧
    (∀ fm lm, ( blower_metrics_service_initialize ctx
        (some ⟨some fm, some lm⟩)).models = ⟨fm, lm⟩) :=
  ⟨rfl, rfl, rfl, rfl, rfl, rfl, rfl, rfl, rfl, rfl, rfl,
   fun lm => rfl,
   fun fm => by cases fm <;> rfl,
   fun fm lm => rfl⟩

/-- Fan ingestion leaves both calibration offsets alone. -/
theorem afs_offsets (c : blower_metrics_service_context_t)
    (f : Option adp910_sample_t) (v : Bool) :
    (apply_fan_sample c f v).fan_pressure_offset_pa
      = c.fan_pressure_offset_pa ∧
    (apply_fan_sample c f v).envelope_pressure_offset_pa
      = c.envelope_pressure_offset_pa := by
  cases v <;> cases f <;> exact ⟨rfl, rfl⟩

/-- Envelope ingestion leaves both calibration offsets alone. -/
theorem aes_offsets (c : blower_metrics_service_context_t)
    (e : Option adp910_sample_t) (w : Bool) :
    (apply_envelope_sample c e w).fan_pressure_offset_pa
      = c.fan_pressure_offset_pa ∧
    (apply_envelope_sample c e w).envelope_pressure_offset_pa
      = c.envelope_pressure_offset_pa := by
  cases w <;> cases e <;> exact ⟨rfl, rfl⟩

/-- The calibration block leaves both offsets alone whenever no window is
active or the window has not yet elapsed. -/
theorem acal_offsets_no_finalize (c : blower_metrics_service_context_t)
    (f : Option adp910_sample_t) (v : Bool) (e : Option adp910_sample_t)
    (w : Bool) (t : Nat)
    (hno : c.cal.active = false ∨
      calElapsedMs t c.cal.start_tick < CALIBRATION_DURATION_MS) :
    (apply_calibration c f v e w t).fan_pressure_offset_pa
      = c.fan_pressure_offset_pa ∧
    (apply_calibration c f v e w t).envelope_pressure_offset_pa
      = c.envelope_pressure_offset_pa := by
  rcases hno with h | h
  · simp [apply_calibration, h]
  · cases hact : c.cal.active
    · simp [apply_calibration, hact]
    · simp [apply_calibration, hact, h]

/-- An initialized context carrying nonzero committed offsets. -/
def c9Ctx : blower_metrics_service_context_t :=
  { initCtx with
    fan_pressure_offset_pa := 5
    envelope_pressure_offset_pa := 3 }

/-- C9 counterexample: `begin_calibration` is not offset-preserving — it
resets both committed offsets to zero (so that the window accumulates
raw, uncorrected pressure), observably changing a nonzero fan offset. -/
theorem c9_begin_calibration_changes_offsets_counterexample :
    c9Ctx.is_initialized = true ∧
    c9Ctx.fan_pressure_offset_pa = 5 ∧
    c9Ctx.envelope_pressure_offset_pa = 3 ∧
    (blower_metrics_service_begin_calibration
      c9Ctx 0).fan_pressure_offset_pa = 0 ∧
    (blower_metrics_service_begin_calibration
      c9Ctx 0).envelope_pressure_offset_pa = 0 ∧
    ¬ ((blower_metrics_service_begin_calibration
        c9Ctx 0).fan_pressure_offset_pa = c9Ctx.fan_pressure_offset_pa) := by
  refine ⟨rfl, rfl, rfl, rfl, rfl, ?_⟩
  have h1 : (blower_metrics_service_begin_calibration
      c9Ctx 0).fan_pressure_offset_pa = 0 := rfl
  have h2 : c9Ctx.fan_pressure_offset_pa = 5 := rfl
  rw [h1, h2]
  norm_num

/-- C9 (amended): the committed offsets change only at manual
zero-capture, at window finalization meeting the minimum count, and at
the two resets (`begin_calibration`, which zeroes both so accumulation is
over raw pressure, and `initialize`); `update` without finalization and
`get_snapshot` leave both offsets untouched. -/
theorem c9_offsets_persistence_amended
    (ctx : blower_metrics_service_context_t) (f : Option adp910_sample_t)
    (v : Bool) (e : Option adp910_sample_t) (w : Bool) (t : Nat)
    (hinit : ctx.is_initialized = true)
    (hno : ctx.cal.active = false ∨
      calElapsedMs t ctx.cal.start_tick < CALIBRATION_DURATION_MS) :
    (blower_metrics_service_update ctx f v e w t).fan_pressure_offset_pa
      = ctx.fan_pressure_offset_pa ∧
    (blower_metrics_service_update ctx f v e w t).envelope_pressure_offset_pa
      = ctx.envelope_pressure_offset_pa ∧
    (blower_metrics_service_begin_calibration
      ctx t).fan_pressure_offset_pa = 0 ∧
    (blower_metrics_service_begin_calibration
      ctx t).envelope_pressure_offset_pa = 0 ∧
    blower_metrics_service_get_snapshot ctx = some ctx.snapshot := by
  have hcalb : (apply_envelope_sample (apply_fan_sample ctx f v) e w).cal
      = ctx.cal := (aes_cal _ _ _).trans (afs_cal _ _ _)
  have hno' : (apply_envelope_sample
        (apply_fan_sample ctx f v) e w).cal.active = false ∨
      calElapsedMs t (apply_envelope_sample
        (apply_fan_sample ctx f v) e w).cal.start_tick
        < CALIBRATION_DURATION_MS := by
    rw [hcalb]; exact hno
  refine ⟨?_, ?_, ?_, ?_, ?_⟩
  · rw [update_unfold ctx f v e w t hinit, (amc_frame _ _).2.2.2.1,
      (acal_offsets_no_finalize _ f v e w t hno').1,
      (aes_offsets _ e w).1, (afs_offsets _ f v).1]
  · rw [update_unfold ctx f v e w t hinit, (amc_frame _ _).2.2.2.2.1,
      (acal_offsets_no_finalize _ f v e w t hno').2,
      (aes_offsets _ e w).2, (afs_offsets _ f v).2]
  · rw [blower_metrics_service_begin_calibration]; simp [hinit]
  · rw [blower_metrics_service_begin_calibration]; simp [hinit]
  · simp [blower_metrics_service_get_snapshot, hinit]

/-- Concrete evaluation of `c9_offsets_persistence_amended` on an update
with no active window. -/
theorem c9_offsets_persistence_amended_witness :
    initCtx.is_initialized = true ∧ initCtx.cal.active = false ∧
    (blower_metrics_service_update initCtx (some ⟨5, 20⟩) true none false
      3).fan_pressure_offset_pa = initCtx.fan_pressure_offset_pa ∧
    (blower_metrics_service_update initCtx (some ⟨5, 20⟩) true none false
      3).envelope_pressure_offset_pa = initCtx.envelope_pressure_offset_pa ∧
    (blower_metrics_service_begin_calibration
      initCtx 3).fan_pressure_offset_pa = 0 :=
  ⟨rfl, rfl,
   (c9_offsets_persistence_amended initCtx (some ⟨5, 20⟩) true none false 3
     rfl (Or.inl rfl)).1,
   (c9_offsets_persistence_amended initCtx (some ⟨5, 20⟩) true none false 3
     rfl (Or.inl rfl)).2.1,
   (c9_offsets_persistence_amended initCtx (some ⟨5, 20⟩) true none false 3
     rfl (Or.inl rfl)).2.2.1⟩

/-- Envelope ingestion leaves every fan-side field alone. -/
theorem aes_fan_frame (c : blower_metrics_service_context_t)
    (e : Option adp910_sample_t) (w : Bool) :
    (apply_envelope_sample c e w).snapshot.fan_sample_valid
      = c.snapshot.fan_sample_valid ∧
    (apply_envelope_sample c e w).snapshot.fan_temperature_c
      = c.snapshot.fan_temperature_c ∧
    (apply_envelope_sample c e w).snapshot.fan_pressure_pa
      = c.snapshot.fan_pressure_pa ∧
    (apply_envelope_sample c e w).last_fan_pressure_raw_pa
      = c.last_fan_pressure_raw_pa ∧
    (apply_envelope_sample c e w).has_last_fan_pressure_raw
      = c.has_last_fan_pressure_raw := by
  cases w <;> cases e <;> exact ⟨rfl, rfl, rfl, rfl, rfl⟩

/-- Fan ingestion leaves every envelope-side field alone. -/
theorem afs_env_frame (c : blower_metrics_service_context_t)
    (f : Option adp910_sample_t) (v : Bool) :
    (apply_fan_sample c f v).snapshot.envelope_sample_valid
      = c.snapshot.envelope_sample_valid ∧
    (apply_fan_sample c f v).snapshot.envelope_temperature_c
      = c.snapshot.envelope_temperature_c ∧
    (apply_fan_sample c f v).snapshot.envelope_pressure_pa
      = c.snapshot.envelope_pressure_pa ∧
    (apply_fan_sample c f v).last_envelope_pressure_raw_pa
      = c.last_envelope_pressure_raw_pa ∧
    (apply_fan_sample c f v).has_last_envelope_pressure_raw
      = c.has_last_envelope_pressure_raw := by
  cases v <;> cases f <;> exact ⟨rfl, rfl, rfl, rfl, rfl⟩

/-- The calibration block never touches validity flags, temperatures or
the cached raw readings (fan side). -/
theorem acal_fan_frame (c : blower_metrics_service_context_t)
    (f : Option adp910_sample_t) (v : Bool) (e : Option adp910_sample_t)
    (w : Bool) (t : Nat) :
    (apply_calibration c f v e w t).snapshot.fan_sample_valid
      = c.snapshot.fan_sample_valid ∧
    (apply_calibration c f v e w t).snapshot.fan_temperature_c
      = c.snapshot.fan_temperature_c ∧
    (apply_calibration c f v e w t).last_fan_pressure_raw_pa
      = c.last_fan_pressure_raw_pa ∧
    (apply_calibration c f v e w t).has_last_fan_pressure_raw
      = c.has_last_fan_pressure_raw := by
  simp only [apply_calibration]
  repeat' split
  all_goals exact ⟨rfl, rfl, rfl, rfl⟩

/-- The calibration block never touches validity flags, temperatures or
the cached raw readings (envelope side). -/
theorem acal_env_frame (c : blower_metrics_service_context_t)
    (f : Option adp910_sample_t) (v : Bool) (e : Option adp910_sample_t)
    (w : Bool) (t : Nat) :
    (apply_calibration c f v e w t).snapshot.envelope_sample_valid
      = c.snapshot.envelope_sample_valid ∧
    (apply_calibration c f v e w t).snapshot.envelope_temperature_c
      = c.snapshot.envelope_temperature_c ∧
    (apply_calibration c f v e w t).last_envelope_pressure_raw_pa
      = c.last_envelope_pressure_raw_pa ∧
    (apply_calibration c f v e w t).has_last_envelope_pressure_raw
      = c.has_last_envelope_pressure_raw := by
  simp only [apply_calibration]
  repeat' split
  all_goals exact ⟨rfl, rfl, rfl, rfl⟩

/-- With no fan sample supplied, the calibration block never adds to the
fan accumulator. -/
theorem acal_fan_counts (c : blower_metrics_service_context_t) (v : Bool)
    (e : Option adp910_sample_t) (w : Bool) (t : Nat) :
    (apply_calibration c none v e w t).cal.fan_count = c.cal.fan_count ∧
    (apply_calibration c none v e w t).cal.fan_sum = c.cal.fan_sum := by
  simp only [apply_calibration]
  repeat' split
  all_goals exact ⟨rfl, rfl⟩

/-- With no envelope sample supplied, the calibration block never adds to
the envelope accumulator. -/
theorem acal_env_counts (c : blower_metrics_service_context_t)
    (f : Option adp910_sample_t) (v : Bool) (w : Bool) (t : Nat) :
    (apply_calibration c f v none w t).cal.envelope_count
      = c.cal.envelope_count ∧
    (apply_calibration c f v none w t).cal.envelope_sum
      = c.cal.envelope_sum := by
  simp only [apply_calibration]
  repeat' split
  all_goals exact ⟨rfl, rfl⟩

/-- With no fan sample supplied and no fan finalization committing this
call (window inactive, still open, or fan count short of the minimum),
the published fan pressure passes through the calibration block. -/
theorem acal_fan_pressure_preserved (c : blower_metrics_service_context_t)
    (v : Bool) (e : Option adp910_sample_t) (w : Bool) (t : Nat)
    (hno : c.cal.active = false ∨
      calElapsedMs t c.cal.start_tick < CALIBRATION_DURATION_MS ∨
      c.cal.fan_count < CALIBRATION_MIN_SAMPLES) :
    (apply_calibration c none v e w t).snapshot.fan_pressure_pa
      = c.snapshot.fan_pressure_pa := by
  rcases hno with h | h | h
  · simp [apply_calibration, h]
  · cases hact : c.cal.active
    · simp [apply_calibration, hact]
    · simp [apply_calibration, hact, h]
  · cases hact : c.cal.active
    · simp [apply_calibration, hact]
    · rcases Nat.lt_or_ge (calElapsedMs t c.cal.start_tick)
        CALIBRATION_DURATION_MS with he2 | he2
      · simp [apply_calibration, hact, he2]
      · simp only [apply_calibration, hact, eq_self_iff_true, if_true]
        rw [if_neg (Nat.not_lt.mpr he2)]
        repeat' split
        all_goals try rfl
        all_goals simp_all
        all_goals omega

/-- With no envelope sample supplied and no envelope finalization
committing this call, the published envelope pressure passes through the
calibration block. -/
theorem acal_env_pressure_preserved (c : blower_metrics_service_context_t)
    (f : Option adp910_sample_t) (v : Bool) (w : Bool) (t : Nat)
    (hno : c.cal.active = false ∨
      calElapsedMs t c.cal.start_tick < CALIBRATION_DURATION_MS ∨
      c.cal.envelope_count < CALIBRATION_MIN_SAMPLES) :
    (apply_calibration c f v none w t).snapshot.envelope_pressure_pa
      = c.snapshot.envelope_pressure_pa := by
  rcases hno with h | h | h
  · simp [apply_calibration, h]
  · cases hact : c.cal.active
    · simp [apply_calibration, hact]
    · simp [apply_calibration, hact, h]
  · cases hact : c.cal.active
    · simp [apply_calibration, hact]
    · rcases Nat.lt_or_ge (calElapsedMs t c.cal.start_tick)
        CALIBRATION_DURATION_MS with he2 | he2
      · simp [apply_calibration, hact, he2]
      · simp only [apply_calibration, hact, eq_self_iff_true, if_true]
        rw [if_neg (Nat.not_lt.mpr he2)]
        repeat' split
        all_goals try rfl
        all_goals simp_all
        all_goals omega

/-- With no fan sample supplied the fan validity flag is irrelevant to
the calibration block. -/
theorem acal_fan_flag_irrelevant (c : blower_metrics_service_context_t)
    (e : Option adp910_sample_t) (w : Bool) (t : Nat) :
    apply_calibration c none true e w t
      = apply_calibration c none false e w t := by
  simp only [apply_calibration]

/-- With no envelope sample supplied the envelope validity flag is
irrelevant to the calibration block. -/
theorem acal_env_flag_irrelevant (c : blower_metrics_service_context_t)
    (f : Option adp910_sample_t) (v : Bool) (t : Nat) :
    apply_calibration c f v none true t
      = apply_calibration c f v none false t := by
  simp only [apply_calibration]

/-- The commit tail leaves every envelope-side ingestion field alone. -/
theorem amc_env_frame (c : blower_metrics_service_context_t) (t : Nat) :
    (apply_models_and_commit c t).snapshot.envelope_sample_valid
      = c.snapshot.envelope_sample_valid ∧
    (apply_models_and_commit c t).snapshot.envelope_temperature_c
      = c.snapshot.envelope_temperature_c ∧
    (apply_models_and_commit c t).last_envelope_pressure_raw_pa
      = c.last_envelope_pressure_raw_pa ∧
    (apply_models_and_commit c t).has_last_envelope_pressure_raw
      = c.has_last_envelope_pressure_raw :=
  ⟨rfl, rfl, rfl, rfl⟩

/-- C10: a role whose validity flag is raised while its sample pointer is
NULL is treated exactly as an invalid role: the whole update is equal to
the update with the flag lowered (in particular nothing is dereferenced),
the role's published validity goes false, its temperature, cached raw
reading and calibration accumulation are untouched, and — as long as no
finalization rewrites it this very call — so is its published pressure.
Both roles behave symmetrically. -/
theorem c10_null_sample_with_valid_flag
    (ctx : blower_metrics_service_context_t)
    (other : Option adp910_sample_t) (ov : Bool) (t : Nat)
    (hinit : ctx.is_initialized = true) :
    blower_metrics_service_update ctx none true other ov t
      = blower_metrics_service_update ctx none false other ov t ∧
    (blower_metrics_service_update ctx none true other ov
      t).snapshot.fan_sample_valid = false ∧
    (blower_metrics_service_update ctx none true other ov
      t).snapshot.fan_temperature_c = ctx.snapshot.fan_temperature_c ∧
    (blower_metrics_service_update ctx none true other ov
      t).last_fan_pressure_raw_pa = ctx.last_fan_pressure_raw_pa ∧
    (blower_metrics_service_update ctx none true other ov
      t).has_last_fan_pressure_raw = ctx.has_last_fan_pressure_raw ∧
    (blower_metrics_service_update ctx none true other ov
      t).cal.fan_count = ctx.cal.fan_count ∧
    (blower_metrics_service_update ctx none true other ov
      t).cal.fan_sum = ctx.cal.fan_sum ∧
    ((ctx.cal.active = false ∨
      calElapsedMs t ctx.cal.start_tick < CALIBRATION_DURATION_MS ∨
      ctx.cal.fan_count < CALIBRATION_MIN_SAMPLES) →
      (blower_metrics_service_update ctx none true other ov
        t).snapshot.fan_pressure_pa = ctx.snapshot.fan_pressure_pa) ∧
    blower_metrics_service_update ctx other ov none true t
      = blower_metrics_service_update ctx other ov none false t ∧
    (blower_metrics_service_update ctx other ov none true
      t).snapshot.envelope_sample_valid = false ∧
    (blower_metrics_service_update ctx other ov none true
      t).snapshot.envelope_temperature_c
        = ctx.snapshot.envelope_temperature_c ∧
    (blower_metrics_service_update ctx other ov none true
      t).last_envelope_pressure_raw_pa = ctx.last_envelope_pressure_raw_pa ∧
    (blower_metrics_service_update ctx other ov none true
      t).has_last_envelope_pressure_raw
        = ctx.has_last_envelope_pressure_raw ∧
    (blower_metrics_service_update ctx other ov none true
      t).cal.envelope_count = ctx.cal.envelope_count ∧
    (blower_metrics_service_update ctx other ov none true
      t).cal.envelope_sum = ctx.cal.envelope_sum ∧
    ((ctx.cal.active = false ∨
      calElapsedMs t ctx.cal.start_tick < CALIBRATION_DURATION_MS ∨
      ctx.cal.envelope_count < CALIBRATION_MIN_SAMPLES) →
      (blower_metrics_service_update ctx other ov none true
        t).snapshot.envelope_pressure_pa
          = ctx.snapshot.envelope_pressure_pa) := by
  refine ⟨?_, ?_, ?_, ?_, ?_, ?_, ?_, ?_, ?_, ?_, ?_, ?_, ?_, ?_, ?_, ?_⟩
  · rw [update_unfold ctx none true other ov t hinit,
      update_unfold ctx none false other ov t hinit,
      afs_none ctx true, afs_none ctx false,
      acal_fan_flag_irrelevant]
  · rw [update_unfold ctx none true other ov t hinit,
      (amc_frame _ _).2.2.2.2.2.2.2.2.1,
      (acal_fan_frame _ _ _ _ _ _).1,
      (aes_fan_frame _ other ov).1, afs_none ctx true]
  · rw [update_unfold ctx none true other ov t hinit,
      (amc_frame _ _).2.2.2.2.2.2.2.1,
      (acal_fan_frame _ _ _ _ _ _).2.1,
      (aes_fan_frame _ other ov).2.1, afs_none ctx true]
  · rw [update_unfold ctx none true other ov t hinit,
      (amc_frame _ _).2.2.2.2.2.2.2.2.2.1,
      (acal_fan_frame _ _ _ _ _ _).2.2.1,
      (aes_fan_frame _ other ov).2.2.2.1, afs_none ctx true]
  · rw [update_unfold ctx none true other ov t hinit,
      (amc_frame _ _).2.2.2.2.2.2.2.2.2.2.1,
      (acal_fan_frame _ _ _ _ _ _).2.2.2,
      (aes_fan_frame _ other ov).2.2.2.2, afs_none ctx true]
  · rw [update_unfold ctx none true other ov t hinit,
      (amc_frame _ _).2.2.1, (acal_fan_counts _ true other ov t).1,
      aes_cal _ other ov, afs_cal ctx none true]
  · rw [update_unfold ctx none true other ov t hinit,
      (amc_frame _ _).2.2.1, (acal_fan_counts _ true other ov t).2,
      aes_cal _ other ov, afs_cal ctx none true]
  · intro hno
    have hcal : (apply_envelope_sample (apply_fan_sample ctx none true)
        other ov).cal = ctx.cal := (aes_cal _ _ _).trans (afs_cal _ _ _)
    have hno' : (apply_envelope_sample (apply_fan_sample ctx none true)
          other ov).cal.active = false ∨
        calElapsedMs t (apply_envelope_sample (apply_fan_sample ctx none true)
          other ov).cal.start_tick < CALIBRATION_DURATION_MS ∨
        (apply_envelope_sample (apply_fan_sample ctx none true)
          other ov).cal.fan_count < CALIBRATION_MIN_SAMPLES := by
      rw [hcal]; exact hno
    rw [update_unfold ctx none true other ov t hinit,
      (amc_frame _ _).2.2.2.2.2.1,
      acal_fan_pressure_preserved _ true other ov t hno',
      (aes_fan_frame _ other ov).2.2.1, afs_none ctx true]
  · rw [update_unfold ctx other ov none true t hinit,
      update_unfold ctx other ov none false t hinit,
      aes_none (apply_fan_sample ctx other ov) true,
      aes_none (apply_fan_sample ctx other ov) false,
      acal_env_flag_irrelevant]
  · rw [update_unfold ctx other ov none true t hinit,
      (amc_env_frame _ _).1, (acal_env_frame _ _ _ _ _ _).1,
      aes_none (apply_fan_sample ctx other ov) true]
  · rw [update_unfold ctx other ov none true t hinit,
      (amc_env_frame _ _).2.1, (acal_env_frame _ _ _ _ _ _).2.1,
      aes_none (apply_fan_sample ctx other ov) true]
    exact (afs_env_frame ctx other ov).2.1
  · rw [update_unfold ctx other ov none true t hinit,
      (amc_env_frame _ _).2.2.1, (acal_env_frame _ _ _ _ _ _).2.2.1,
      aes_none (apply_fan_sample ctx other ov) true]
    exact (afs_env_frame ctx other ov).2.2.2.1
  · rw [update_unfold ctx other ov none true t hinit,
      (amc_env_frame _ _).2.2.2, (acal_env_frame _ _ _ _ _ _).2.2.2,
      aes_none (apply_fan_sample ctx other ov) true]
    exact (afs_env_frame ctx other ov).2.2.2.2
  · rw [update_unfold ctx other ov none true t hinit,
      aes_none (apply_fan_sample ctx other ov) true,
      (amc_frame _ _).2.2.1, (acal_env_counts _ other ov true t).1]
    exact congrArg (fun x => x.envelope_count) (afs_cal ctx other ov)
  · rw [update_unfold ctx other ov none true t hinit,
      aes_none (apply_fan_sample ctx other ov) true,
      (amc_frame _ _).2.2.1, (acal_env_counts _ other ov true t).2]
    exact congrArg (fun x => x.envelope_sum) (afs_cal ctx other ov)
  · intro hno
    have hcal2 : (apply_envelope_sample (apply_fan_sample ctx other ov)
        none true).cal = ctx.cal := (aes_cal _ _ _).trans (afs_cal _ _ _)
    have hno'' : (apply_envelope_sample (apply_fan_sample ctx other ov)
          none true).cal.active = false ∨
        calElapsedMs t (apply_envelope_sample (apply_fan_sample ctx other ov)
          none true).cal.start_tick < CALIBRATION_DURATION_MS ∨
        (apply_envelope_sample (apply_fan_sample ctx other ov)
          none true).cal.envelope_count < CALIBRATION_MIN_SAMPLES := by
      rw [hcal2]; exact hno
    rw [update_unfold ctx other ov none true t hinit,
      (amc_frame _ _).2.2.2.2.2.2.1,
      acal_env_pressure_preserved _ other ov true t hno'',
      aes_none (apply_fan_sample ctx other ov) true]
    exact (afs_env_frame ctx other ov).2.2.1

/-- Concrete evaluation of `c10_null_sample_with_valid_flag`. -/
theorem c10_null_sample_with_valid_flag_witness :
    initCtx.is_initialized = true ∧
    blower_metrics_service_update initCtx none true none false 0
      = blower_metrics_service_update initCtx none false none false 0 ∧
    (blower_metrics_service_update initCtx none true none false
      0).snapshot.fan_sample_valid = false ∧
    (blower_metrics_service_update initCtx none true none false
      0).cal.fan_count = initCtx.cal.fan_count ∧
    (blower_metrics_service_update initCtx none true none false
      0).snapshot.fan_pressure_pa = initCtx.snapshot.fan_pressure_pa :=
  ⟨rfl,
   (c10_null_sample_with_valid_flag initCtx none false 0 rfl).1,
   (c10_null_sample_with_valid_flag initCtx none false 0 rfl).2.1,
   (c10_null_sample_with_valid_flag initCtx none false 0
     rfl).2.2.2.2.2.1,
   (c10_null_sample_with_valid_flag initCtx none false 0
     rfl).2.2.2.2.2.2.2.1 (Or.inl rfl)⟩
